import Mathlib

/-!
Verification of the job-market-insights pipeline of `src/app.py`
(billo-w/job-app-v2) against its natural-language specification.

The Python source is shallowly embedded: every network call is replaced by
an explicit "response" value handed to the function (`HistFetch`,
`SearchFetch`, `AiFetch`, `TokenResp`), so each helper becomes a pure
function of its inputs and of the response its single HTTP request would
have produced.  Python floats are modelled as `ℚ` (exact arithmetic; the
values that arise — salary bucket keys and counts — are well inside the
range where doubles are exact), Python `time.time()` timestamps as `ℚ`,
JSON integers as `ℕ`/`ℤ`, and absent JSON fields as `Option`.
Python truthiness of the values the code branches on is modelled
explicitly (`pyTruthyStr`, `pyTruthyInt`: `None`, `""` and `0` are falsy).
-/

namespace JobApp

/-- Python truthiness of an optional string: `None` and `""` are falsy. -/
def pyTruthyStr : Option String → Bool
  | none => false
  | some s => !s.isEmpty

/-- Python truthiness of an optional integer: `None` and `0` are falsy. -/
def pyTruthyInt : Option ℤ → Bool
  | none => false
  | some n => n != 0

/-- Python `str.strip()` (no argument): remove leading and trailing
whitespace.  Used for `content.strip()` in `get_ai_summary`. -/
def pyStrip (s : String) : String :=
  String.mk (((s.data.dropWhile Char.isWhitespace).reverse.dropWhile
    Char.isWhitespace).reverse)

/-- Python `s[:n]` on a string: the first `n` characters (code points). -/
def pySlice (n : ℕ) (s : String) : String :=
  String.mk (s.data.take n)

/-- Python `s.upper()` (ASCII range). -/
def pyUpper (s : String) : String :=
  String.mk (s.data.map Char.toUpper)

/-- Python `str.isalnum()` (ASCII range): non-empty and every character
alphanumeric. -/
def pyIsAlnum (s : String) : Bool :=
  !s.isEmpty && s.data.all Char.isAlphanum

/-- Python `s.strip(c)` for a single character `c`: remove every leading
and trailing occurrence of `c`. -/
def pyStripChar (c : Char) (s : String) : String :=
  String.mk (((s.data.dropWhile (· == c)).reverse.dropWhile (· == c)).reverse)

/-- Helper of `splitOnChar`: `acc` holds the characters of the current
piece, reversed. -/
def splitOnCharAux (sep : Char) : List Char → List Char → List String
  | [], acc => [String.mk acc.reverse]
  | c :: t, acc =>
    if c = sep then String.mk acc.reverse :: splitOnCharAux sep t []
    else splitOnCharAux sep t (c :: acc)

/-- Python `s.split(sep)` for a one-character separator: like Python, the
result is never empty (`"".split(sep) == [""]`), and empty pieces between
adjacent separators are kept. -/
def splitOnChar (sep : Char) (s : String) : List String :=
  splitOnCharAux sep s.data []

lemma splitOnCharAux_ne_nil (sep : Char) (l acc : List Char) :
    splitOnCharAux sep l acc ≠ [] := by
  induction l generalizing acc with
  | nil => simp [splitOnCharAux]
  | cons c t ih =>
    by_cases h : c = sep <;> simp [splitOnCharAux, h, ih]

lemma splitOnChar_ne_nil (sep : Char) (s : String) :
    splitOnChar sep s ≠ [] :=
  splitOnCharAux_ne_nil sep s.data []

/-- The value of a digit string, most significant digit first
(`digitsToNat ['3','0'] = 30`). -/
def digitsToNat (l : List Char) : ℕ :=
  l.foldl (fun n c => 10 * n + (c.toNat - '0'.toNat)) 0

/-- The combinatorial part of Python `float(s)`: an optional sign, digits
with at most one decimal point, at least one digit in all.  Returns
`(negative, integer part, fraction digits value, number of fraction
digits)`.  Exponent, `inf`/`nan`, underscore and surrounding-whitespace
forms of the Python float grammar are not modelled: Adzuna histogram
bucket keys are plain digit strings. -/
def parseFloatParts? (s : String) : Option (Bool × ℕ × ℕ × ℕ) :=
  let step : Bool × List Char → Option (Bool × ℕ × ℕ × ℕ) := fun (neg, rest) =>
    let intPart := rest.takeWhile Char.isDigit
    let rest2 := rest.drop intPart.length
    match rest2 with
    | [] => if intPart.isEmpty then none else some (neg, digitsToNat intPart, 0, 0)
    | '.' :: frac =>
      if frac.all Char.isDigit && !(intPart.isEmpty && frac.isEmpty) then
        some (neg, digitsToNat intPart, digitsToNat frac, frac.length)
      else none
    | _ => none
  match s.data with
  | '-' :: t => step (true, t)
  | '+' :: t => step (false, t)
  | t => step (false, t)

/-- Python `float(s)` as an exact rational, `none` when `float` would raise
`ValueError` (see `parseFloatParts?` for the fragment of the grammar
modelled). -/
def parseFloat? (s : String) : Option ℚ :=
  (parseFloatParts? s).map fun (neg, ip, fp, fd) =>
    let v : ℚ := (ip : ℚ) + (fp : ℚ) / 10 ^ fd
    if neg then -v else v

/-- Python `round(q)` with no digits argument: nearest integer, ties to the
even integer (banker's rounding). -/
def pythonRound (q : ℚ) : ℤ :=
  let f : ℤ := ⌊q⌋
  let r : ℚ := q - f
  if r < 1/2 then f
  else if 1/2 < r then f + 1
  else if f % 2 = 0 then f else f + 1

lemma pythonRound_bounds (q : ℚ) :
    ⌊q⌋ ≤ pythonRound q ∧ pythonRound q ≤ ⌈q⌉ := by
  unfold pythonRound
  dsimp only
  have hfl : (⌊q⌋ : ℚ) ≤ q := Int.floor_le q
  have hlt : ∀ h : ¬ q - ⌊q⌋ < 1/2, ⌊q⌋ + 1 ≤ ⌈q⌉ := by
    intro h
    have h2 : (⌊q⌋ : ℚ) < q := by
      push_neg at h
      linarith
    exact Int.add_one_le_iff.mpr (Int.lt_ceil.mpr h2)
  split_ifs with h1 h2 h3
  · exact ⟨le_refl _, Int.floor_le_ceil q⟩
  · exact ⟨by omega, hlt h1⟩
  · exact ⟨le_refl _, Int.floor_le_ceil q⟩
  · exact ⟨by omega, hlt h1⟩

/-! ## Salary Aggregator (`get_salary_histogram`, app.py lines 237–277)

The histogram arrives as a JSON object mapping bucket keys (strings) to
counts (integers), modelled as an association list in iteration order.
The single HTTP request is modelled by a `HistFetch` value. -/

/-- The result dictionary of `get_salary_histogram`:
`{"histogram": ..., "average": ...}`. -/
structure SalaryInsight where
  histogram : List (String × ℕ)
  average : Option ℤ
deriving DecidableEq, Repr

/-- Outcome of the Adzuna histogram HTTP request.  `fail` covers every
exception path (`Timeout`, `HTTPError`, `RequestException`, any other
exception): all of them make the function return `None`.  On `success`,
the decoded JSON carries the `histogram` member when present. -/
inductive HistFetch where
  | fail
  | success (histogram : Option (List (String × ℕ)))
deriving DecidableEq

/-- The loop accumulator `total_salary`: `float(salary_point) * count`
summed over the buckets whose key parses as a float (a `ValueError` skips
the bucket). -/
def totalSalary : List (String × ℕ) → ℚ
  | [] => 0
  | (k, c) :: t =>
    match parseFloat? k with
    | some v => v * (c : ℚ) + totalSalary t
    | none => totalSalary t

/-- The loop accumulator `total_count`: counts summed over the buckets
whose key parses as a float. -/
def totalCount : List (String × ℕ) → ℕ
  | [] => 0
  | (k, c) :: t =>
    match parseFloat? k with
    | some _ => c + totalCount t
    | none => totalCount t

/-- The numeric bucket keys of a histogram, as rationals. -/
def numericKeys (h : List (String × ℕ)) : List ℚ :=
  h.filterMap fun kc => parseFloat? kc.1

/-- `get_salary_histogram` (app.py 237–277).  `credsOk` models
`ADZUNA_APP_ID and ADZUNA_APP_KEY` both being set.  The data branch runs
only when the response decodes and carries a non-empty `histogram`
member; `average` is `round(total_salary / total_count)` when
`total_count > 0`, else `None`. -/
def get_salary_histogram (credsOk : Bool) (r : HistFetch) : Option SalaryInsight :=
  if credsOk = false then none
  else
    match r with
    | .fail => none
    | .success none => none
    | .success (some hist) =>
      if hist.isEmpty then none
      else
        let total_salary := totalSalary hist
        let total_count := totalCount hist
        let average_salary : Option ℤ :=
          if 0 < total_count then some (pythonRound (total_salary / (total_count : ℚ)))
          else none
        some ⟨hist, average_salary⟩

/-- Minimum of a list of rationals (`0` on the empty list, which never
arises where it is used). -/
def listMin : List ℚ → ℚ
  | [] => 0
  | [q] => q
  | q :: t => min q (listMin t)

/-- Maximum of a list of rationals (`0` on the empty list). -/
def listMax : List ℚ → ℚ
  | [] => 0
  | [q] => q
  | q :: t => max q (listMax t)

lemma listMin_le (l : List ℚ) : ∀ x ∈ l, listMin l ≤ x := by
  induction l with
  | nil => simp
  | cons q t ih =>
    intro x hx
    cases t with
    | nil =>
      simp only [List.mem_singleton, List.mem_cons, List.not_mem_nil, or_false] at hx
      subst hx
      simp [listMin]
    | cons b t2 =>
      rcases List.mem_cons.mp hx with h | h
      · subst h
        exact min_le_left _ _
      · exact le_trans (min_le_right _ _) (ih x h)

lemma le_listMax (l : List ℚ) : ∀ x ∈ l, x ≤ listMax l := by
  induction l with
  | nil => simp
  | cons q t ih =>
    intro x hx
    cases t with
    | nil =>
      simp only [List.mem_singleton, List.mem_cons, List.not_mem_nil, or_false] at hx
      subst hx
      simp [listMax]
    | cons b t2 =>
      rcases List.mem_cons.mp hx with h | h
      · subst h
        exact le_max_left _ _
      · exact le_trans (ih x h) (le_max_right _ _)

lemma numericKeys_cons_some {k : String} {v : ℚ} (c : ℕ) (t : List (String × ℕ))
    (hk : parseFloat? k = some v) :
    numericKeys ((k, c) :: t) = v :: numericKeys t := by
  simp [numericKeys, List.filterMap_cons, hk]

lemma numericKeys_cons_none {k : String} (c : ℕ) (t : List (String × ℕ))
    (hk : parseFloat? k = none) :
    numericKeys ((k, c) :: t) = numericKeys t := by
  simp [numericKeys, List.filterMap_cons, hk]

lemma totalSalary_cons_some {k : String} {v : ℚ} (c : ℕ) (t : List (String × ℕ))
    (hk : parseFloat? k = some v) :
    totalSalary ((k, c) :: t) = v * (c : ℚ) + totalSalary t := by
  simp [totalSalary, hk]

lemma totalSalary_cons_none {k : String} (c : ℕ) (t : List (String × ℕ))
    (hk : parseFloat? k = none) :
    totalSalary ((k, c) :: t) = totalSalary t := by
  simp [totalSalary, hk]

lemma totalCount_cons_some {k : String} {v : ℚ} (c : ℕ) (t : List (String × ℕ))
    (hk : parseFloat? k = some v) :
    totalCount ((k, c) :: t) = c + totalCount t := by
  simp [totalCount, hk]

lemma totalCount_cons_none {k : String} (c : ℕ) (t : List (String × ℕ))
    (hk : parseFloat? k = none) :
    totalCount ((k, c) :: t) = totalCount t := by
  simp [totalCount, hk]

/-- The weighted sum over numeric buckets is bracketed by any lower/upper
bound on the numeric keys, scaled by the total count. -/
lemma totals_between (a b : ℚ) :
    ∀ h : List (String × ℕ), (∀ q ∈ numericKeys h, a ≤ q ∧ q ≤ b) →
      a * (totalCount h : ℚ) ≤ totalSalary h ∧
      totalSalary h ≤ b * (totalCount h : ℚ) := by
  intro h
  induction h with
  | nil => intro _; simp [totalSalary, totalCount]
  | cons kc t ih =>
    obtain ⟨k, c⟩ := kc
    intro hb
    cases hk : parseFloat? k with
    | none =>
      rw [totalSalary_cons_none c t hk, totalCount_cons_none c t hk]
      exact ih (fun q hq => hb q (by rw [numericKeys_cons_none c t hk]; exact hq))
    | some v =>
      have hv : a ≤ v ∧ v ≤ b := hb v (by rw [numericKeys_cons_some c t hk]; simp)
      have ht := ih (fun q hq => hb q (by rw [numericKeys_cons_some c t hk]; simp [hq]))
      rw [totalSalary_cons_some c t hk, totalCount_cons_some c t hk]
      have hc : (0 : ℚ) ≤ (c : ℚ) := by positivity
      push_cast
      constructor
      · nlinarith [ht.1, hv.1]
      · nlinarith [ht.2, hv.2]

lemma totalCount_eq_zero_of_all_none (h : List (String × ℕ))
    (hall : ∀ kc ∈ h, parseFloat? kc.1 = none) : totalCount h = 0 := by
  induction h with
  | nil => simp [totalCount]
  | cons kc t ih =>
    obtain ⟨k, c⟩ := kc
    rw [totalCount_cons_none c t (hall (k, c) (by simp))]
    exact ih fun kc hkc => hall kc (by simp [hkc])

lemma totalCount_pos_ne_nil {h : List (String × ℕ)} (hpos : 0 < totalCount h) :
    h ≠ [] := by
  rintro rfl
  simp [totalCount] at hpos

lemma pythonRound_eq_floor {q : ℚ} (h : q - ⌊q⌋ < 1/2) : pythonRound q = ⌊q⌋ := by
  unfold pythonRound
  dsimp only
  rw [if_pos h]

lemma pythonRound_eq_floor_add_one {q : ℚ} (h : 1/2 < q - ⌊q⌋) :
    pythonRound q = ⌊q⌋ + 1 := by
  unfold pythonRound
  dsimp only
  rw [if_neg (by linarith), if_pos h]

lemma isEmpty_eq_false_of_ne_nil {α : Type} {l : List α} (h : l ≠ []) :
    l.isEmpty = false := by
  cases l with
  | nil => exact absurd rfl h
  | cons a t => rfl

/-- C2 (amended): for every histogram response whose numeric-keyed buckets
carry a positive total count, `get_salary_histogram` returns
`average = round(sum(bucket_value * count) / sum(count))` over exactly the
numeric-keyed buckets (non-numeric keys skipped without error), and this
average lies within `[⌊min numeric bucket key⌋, ⌈max numeric bucket key⌉]`
(so within `[min, max]` themselves whenever the numeric keys are whole
numbers); in particular the histogram `30000 ↦ 2, 40000 ↦ 2` yields
average `35000` (see `C2_witness`). -/
theorem C2_salary_average_and_bounds (h : List (String × ℕ))
    (hpos : 0 < totalCount h) :
    get_salary_histogram true (HistFetch.success (some h)) =
      some ⟨h, some (pythonRound (totalSalary h / (totalCount h : ℚ)))⟩
    ∧ ⌊listMin (numericKeys h)⌋ ≤ pythonRound (totalSalary h / (totalCount h : ℚ))
    ∧ pythonRound (totalSalary h / (totalCount h : ℚ)) ≤ ⌈listMax (numericKeys h)⌉ := by
  have hne : h ≠ [] := totalCount_pos_ne_nil hpos
  have hie : h.isEmpty = false := isEmpty_eq_false_of_ne_nil hne
  refine ⟨by simp [get_salary_histogram, hie, hpos], ?_, ?_⟩
  all_goals
    have hb : ∀ q ∈ numericKeys h,
        listMin (numericKeys h) ≤ q ∧ q ≤ listMax (numericKeys h) :=
      fun q hq => ⟨listMin_le _ q hq, le_listMax _ q hq⟩
    have ht := totals_between (listMin (numericKeys h)) (listMax (numericKeys h)) h hb
    have htc : (0 : ℚ) < (totalCount h : ℚ) := by exact_mod_cast hpos
    have hpr := pythonRound_bounds (totalSalary h / (totalCount h : ℚ))
  · have h1 : listMin (numericKeys h) ≤ totalSalary h / (totalCount h : ℚ) :=
      (le_div_iff₀ htc).mpr ht.1
    exact le_trans (Int.floor_le_floor h1) hpr.1
  · have h2 : totalSalary h / (totalCount h : ℚ) ≤ listMax (numericKeys h) :=
      (div_le_iff₀ htc).mpr ht.2
    exact le_trans hpr.2 (Int.ceil_le_ceil h2)

/-- C2 witness: the spec scenario histogram `30000 ↦ 2, 40000 ↦ 2` has a
positive numeric-bucket count and yields average `35000`. -/
theorem C2_witness :
    0 < totalCount [("30000", 2), ("40000", 2)]
    ∧ get_salary_histogram true
        (HistFetch.success (some [("30000", 2), ("40000", 2)])) =
        some ⟨[("30000", 2), ("40000", 2)], some 35000⟩ := by
  have hpf1 : parseFloat? "30000" = some 30000 := by
    have hp : parseFloatParts? "30000" = some (false, 30000, 0, 0) := by decide
    simp [parseFloat?, hp]
  have hpf2 : parseFloat? "40000" = some 40000 := by
    have hp : parseFloatParts? "40000" = some (false, 40000, 0, 0) := by decide
    simp [parseFloat?, hp]
  have hpos : 0 < totalCount [("30000", 2), ("40000", 2)] := by
    simp [totalCount, hpf1, hpf2]
  have hts : totalSalary [("30000", 2), ("40000", 2)] = 140000 := by
    simp [totalSalary, hpf1, hpf2]
    norm_num
  have htc : totalCount [("30000", 2), ("40000", 2)] = 4 := by
    simp [totalCount, hpf1, hpf2]
  have hround : pythonRound (totalSalary [("30000", 2), ("40000", 2)] /
      (totalCount [("30000", 2), ("40000", 2)] : ℚ)) = 35000 := by
    rw [hts, htc]
    rw [show ((140000 : ℚ) / ((4 : ℕ) : ℚ)) = 35000 by norm_num]
    rw [pythonRound_eq_floor (by norm_num)]
    norm_num
  refine ⟨hpos, ((C2_salary_average_and_bounds _ hpos).1).trans ?_⟩
  rw [hround]

/-- C2 counterexample: the claim as stated asserts the average lies within
`[min numeric bucket key, max numeric bucket key]`, but for the histogram
`"0.6" ↦ 1` the computed average is `round(0.6) = 1`, which exceeds the
maximum numeric bucket key `0.6`. -/
theorem C2_counterexample :
    get_salary_histogram true (HistFetch.success (some [("0.6", 1)])) =
      some ⟨[("0.6", 1)], some 1⟩
    ∧ listMax (numericKeys [("0.6", 1)]) = 3/5
    ∧ ¬ ((1 : ℚ) ≤ 3/5) := by
  have hpf : parseFloat? "0.6" = some (3/5) := by
    have hp : parseFloatParts? "0.6" = some (false, 0, 6, 1) := by decide
    have d0 : digitsToNat ['0'] = 0 := by decide
    have d6 : digitsToNat ['6'] = 6 := by decide
    simp [parseFloat?, hp, d0, d6]
    norm_num
  have hts : totalSalary [("0.6", 1)] = 3/5 := by
    simp [totalSalary, hpf]
  have htc : totalCount [("0.6", 1)] = 1 := by
    simp [totalCount, hpf]
  have hround : pythonRound ((3 : ℚ)/5) = 1 := by
    have hf : ⌊(3/5 : ℚ)⌋ = 0 := by norm_num
    rw [pythonRound_eq_floor_add_one (by rw [hf]; norm_num), hf]
    norm_num
  have hkeys : numericKeys [("0.6", 1)] = [3/5] := by
    simp [numericKeys, List.filterMap_cons, hpf]
  refine ⟨?_, ?_, by norm_num⟩
  · simp [get_salary_histogram, hts, htc, hround]
  · rw [hkeys]
    simp [listMax]

/-- C6: for every non-empty histogram in which no bucket key parses as a
number, `get_salary_histogram` returns the histogram itself with an
absent (`none`) average — not zero and not an error. -/
theorem C6_all_non_numeric_average_none (h : List (String × ℕ)) (hne : h ≠ [])
    (hall : ∀ kc ∈ h, parseFloat? kc.1 = none) :
    get_salary_histogram true (HistFetch.success (some h)) = some ⟨h, none⟩ := by
  have hie : h.isEmpty = false := isEmpty_eq_false_of_ne_nil hne
  have h0 : totalCount h = 0 := totalCount_eq_zero_of_all_none h hall
  simp [get_salary_histogram, hie, h0]

/-- C6 witness: the one-bucket histogram `"abc" ↦ 3` has no numeric key
and gets `average = none` while the histogram is still returned. -/
theorem C6_witness :
    parseFloat? "abc" = none
    ∧ get_salary_histogram true (HistFetch.success (some [("abc", 3)])) =
        some ⟨[("abc", 3)], none⟩ :=
  ⟨by decide, C6_all_non_numeric_average_none _ (by decide) (by decide)⟩

/-! ## Job id extraction (`extract_adzuna_job_id`, app.py lines 357–376)

`urlparse` splits a URL into components; the function only reads `.path`
and `.query`.  We model the already-parsed URL: `path` is the raw path
string, and `query` is the ordered list of key/value pairs of the query
string with percent-decoding already applied.  `parse_qs` keeps, per key,
the list of its non-blank values (a pair whose value is the empty string
is dropped), so `query_params[k][0]` is the first non-blank value of `k`
(`parseQsLookup`); `k in query_params` holds exactly when such a value
exists. -/

/-- A URL after `urlparse`: the components `extract_adzuna_job_id` reads. -/
structure ParsedUrl where
  path : String
  query : List (String × String)
deriving DecidableEq, Repr

/-- `parse_qs(query)[k][0]` guarded by `k in parse_qs(query)`: the first
non-blank value of key `k`, if any. -/
def parseQsLookup (q : List (String × String)) (k : String) : Option String :=
  (q.find? fun p => p.1 == k && p.2 != "").map (·.2)

/-- `parsed_url.path.strip('/').split('/')`: never empty. -/
def pathParts (p : String) : List String :=
  splitOnChar '/' (pyStripChar '/' p)

lemma pathParts_ne_nil (p : String) : pathParts p ≠ [] :=
  splitOnChar_ne_nil '/' (pyStripChar '/' p)

/-- `extract_adzuna_job_id` (app.py 357–376).  `none` in the argument
models a missing/empty redirect URL (`if not url: return None`).  The
`if path_parts:` guard of the source is kept as the `getLast?` match
(it is in fact always taken, since `split` never returns an empty
list). -/
def extract_adzuna_job_id : Option ParsedUrl → Option String
  | none => none
  | some u =>
    let path_parts := pathParts u.path
    let fromPath : Option String :=
      match path_parts.getLast? with
      | some potential_id =>
        if pyIsAlnum potential_id ∧ 5 < potential_id.length then some potential_id
        else none
      | none => none
    match fromPath with
    | some pid => some pid
    | none =>
      match parseQsLookup u.query "aid" with
      | some v => some v
      | none =>
        match parseQsLookup u.query "jobId" with
        | some v => some v
        | none => parseQsLookup u.query "id"

lemma getLast?_eq_getLastD {α : Type} (l : List α) (d : α) (h : l ≠ []) :
    l.getLast? = some (l.getLastD d) := by
  induction l with
  | nil => exact absurd rfl h
  | cons a t ih =>
    cases t with
    | nil => rfl
    | cons b t2 =>
      rw [List.getLast?_cons_cons, List.getLastD_cons]
      exact ih (by simp)

/-- The ordered heuristic `extract_adzuna_job_id` implements, written out:
last path segment when alphanumeric and longer than 5 characters, else the
first value of `aid`, `jobId`, `id` in that priority order, else `none`. -/
lemma extract_some_eq (u : ParsedUrl) :
    extract_adzuna_job_id (some u) =
      if pyIsAlnum ((pathParts u.path).getLastD "")
          ∧ 5 < ((pathParts u.path).getLastD "").length then
        some ((pathParts u.path).getLastD "")
      else
        parseQsLookup u.query "aid" <|> parseQsLookup u.query "jobId" <|>
          parseQsLookup u.query "id" := by
  unfold extract_adzuna_job_id
  dsimp only
  rw [getLast?_eq_getLastD (pathParts u.path) "" (pathParts_ne_nil u.path)]
  dsimp only
  by_cases hc : pyIsAlnum ((pathParts u.path).getLastD "")
      ∧ 5 < ((pathParts u.path).getLastD "").length
  · simp only [if_pos hc]
  · simp only [if_neg hc]
    cases parseQsLookup u.query "aid" with
    | some v => simp
    | none =>
      cases parseQsLookup u.query "jobId" with
      | some v => simp
      | none => simp

/-- C4: `extract_adzuna_job_id` implements the ordered heuristic: for
every parsed URL it returns the last path segment if that segment is
alphanumeric and longer than 5 characters; otherwise the first value of
the query parameters `aid`, `jobId`, `id` tried in that fixed priority
order; otherwise `none` (the listing is discarded by the caller). -/
theorem C4_extract_id_heuristic (u : ParsedUrl) :
    extract_adzuna_job_id (some u) =
      if pyIsAlnum ((pathParts u.path).getLastD "")
          ∧ 5 < ((pathParts u.path).getLastD "").length then
        some ((pathParts u.path).getLastD "")
      else
        parseQsLookup u.query "aid" <|> parseQsLookup u.query "jobId" <|>
          parseQsLookup u.query "id" :=
  extract_some_eq u

/-- C9: the alphanumeric-and-length-greater-than-5 filter applies only to
the last path segment: when the path yields no id, the first value of
`aid` (else `jobId`, else `id`) is returned unchanged, with no constraint
on its length or characters. -/
theorem C9_query_param_value_unchanged (u : ParsedUrl) (v : String)
    (hpath : ¬ (pyIsAlnum ((pathParts u.path).getLastD "")
        ∧ 5 < ((pathParts u.path).getLastD "").length)) :
    (parseQsLookup u.query "aid" = some v →
      extract_adzuna_job_id (some u) = some v)
    ∧ (parseQsLookup u.query "aid" = none →
      parseQsLookup u.query "jobId" = some v →
      extract_adzuna_job_id (some u) = some v)
    ∧ (parseQsLookup u.query "aid" = none →
      parseQsLookup u.query "jobId" = none →
      parseQsLookup u.query "id" = some v →
      extract_adzuna_job_id (some u) = some v) := by
  rw [extract_some_eq u, if_neg hpath]
  refine ⟨fun h1 => ?_, fun h1 h2 => ?_, fun h1 h2 h3 => ?_⟩
  · simp [h1]
  · simp [h1, h2]
  · simp [h1, h2, h3]

/-- C9 witness: the URL with path `/l/ad` and query `jobId=a!` yields the
id `a!`, although `a!` is neither alphanumeric nor longer than 5
characters. -/
theorem C9_witness :
    extract_adzuna_job_id (some ⟨"/l/ad", [("jobId", "a!")]⟩) = some "a!"
    ∧ pyIsAlnum "a!" = false ∧ "a!".length < 6 :=
  ⟨(C9_query_param_value_unchanged ⟨"/l/ad", [("jobId", "a!")]⟩ "a!"
      (by decide)).2.1 (by decide) (by decide),
   by decide, by decide⟩

/-! ## Token Cache (`get_lightcast_token`, app.py lines 119–165)

`lightcast_token_cache` is a module-level dict holding `access_token`
(initially `None`) and `expires_at` (initially `0`); the function reads it,
may overwrite it, and returns the token or `None`.  We model one call as a
pure function of the configuration, the current time (`time.time()`), the
cache state before the call, and the outcome of the one possible token
request, returning the result together with the cache state after the
call. -/

/-- The module-level token cache: `access_token` and `expires_at`. -/
structure TokenCache where
  access_token : Option String
  expires_at : ℚ
deriving DecidableEq, Repr

/-- Outcome of the POST to the auth endpoint.  `err` covers
`RequestException` and every other exception (including a body that fails
to decode as JSON).  On `ok`, the decoded body's `access_token` and
`expires_in` members, each possibly absent. -/
inductive TokenResp where
  | err
  | ok (access_token : Option String) (expires_in : Option ℚ)
deriving DecidableEq

/-- The cache-validity test of line 125:
`cache["access_token"] and cache["expires_at"] > current_time + 60`. -/
def cacheHit (now : ℚ) (cache : TokenCache) : Bool :=
  pyTruthyStr cache.access_token && decide (now + 60 < cache.expires_at)

/-- `get_lightcast_token` (app.py 119–165).  `credsOk` models
`LIGHTCAST_CLIENT_ID` and `LIGHTCAST_CLIENT_SECRET` both being set.
Returns the token (or `none`) and the cache after the call. -/
def get_lightcast_token (credsOk : Bool) (now : ℚ) (cache : TokenCache)
    (r : TokenResp) : Option String × TokenCache :=
  if cacheHit now cache then (cache.access_token, cache)
  else if credsOk = false then (none, cache)
  else
    match r with
    | .err => (none, cache)
    | .ok tok expires_in =>
      let expires_in := expires_in.getD 3600
      if pyTruthyStr tok = false then (none, cache)
      else (tok, ⟨tok, now + expires_in⟩)

/-- C5: the token getter is idempotent within the expiry margin.  When the
cached token is set (truthy) and `now + 60 < expires_at`, it returns the
cached value, leaves the cache unchanged, and the result does not depend
on any network response (no request is performed); otherwise, when the
credentials are set and the exchange succeeds with a truthy token, it
returns the new token and stores it with expiry `now + expires_in`. -/
theorem C5_token_cache_idempotent (credsOk : Bool) (now : ℚ)
    (cache : TokenCache) (r r2 : TokenResp) (tok : Option String)
    (expires_in : Option ℚ) :
    (cacheHit now cache = true →
      get_lightcast_token credsOk now cache r = (cache.access_token, cache)
      ∧ get_lightcast_token credsOk now cache r =
          get_lightcast_token credsOk now cache r2)
    ∧ (cacheHit now cache = false → pyTruthyStr tok = true →
      get_lightcast_token true now cache (.ok tok expires_in) =
        (tok, ⟨tok, now + expires_in.getD 3600⟩)) := by
  constructor
  · intro hhit
    unfold get_lightcast_token
    rw [if_pos hhit, if_pos hhit]
    exact ⟨rfl, rfl⟩
  · intro hmiss htok
    unfold get_lightcast_token
    rw [if_neg (by rw [hmiss]; exact Bool.false_ne_true)]
    simp [htok]

/-- C5 witness: at time `0` with a cached token valid until `1000`, the
call returns the cached token untouched for any response; with a cold
cache and a successful exchange (`expires_in = 100`), the new token is
stored with expiry `0 + 100`. -/
theorem C5_witness :
    get_lightcast_token true 0 ⟨some "tok", 1000⟩ TokenResp.err =
      (some "tok", ⟨some "tok", 1000⟩)
    ∧ get_lightcast_token true 0 ⟨none, 0⟩ (.ok (some "new") (some 100)) =
      (some "new", ⟨some "new", 0 + (100 : ℚ)⟩) := by
  have hhit : cacheHit 0 ⟨some "tok", 1000⟩ = true := by
    have ht : pyTruthyStr (some "tok") = true := by decide
    simp only [cacheHit, ht, Bool.true_and, decide_eq_true_eq]
    norm_num
  have hmiss : cacheHit 0 ⟨none, 0⟩ = false := by
    simp [cacheHit, pyTruthyStr]
  constructor
  · exact ((C5_token_cache_idempotent true 0 ⟨some "tok", 1000⟩ TokenResp.err
      TokenResp.err none none).1 hhit).1
  · exact (C5_token_cache_idempotent true 0 ⟨none, 0⟩ TokenResp.err
      TokenResp.err (some "new") (some 100)).2 hmiss (by decide)

/-- C10: `get_lightcast_token` is atomic on failure — when the cache is
not hit and the exchange either errors or returns a response without a
truthy `access_token`, the function returns `none` and the cache keeps
exactly the value it held before the call. -/
theorem C10_token_failure_leaves_cache (now : ℚ) (cache : TokenCache)
    (r : TokenResp) (hmiss : cacheHit now cache = false)
    (hfail : r = TokenResp.err ∨
      ∃ tok expires_in, r = TokenResp.ok tok expires_in ∧ pyTruthyStr tok = false) :
    get_lightcast_token true now cache r = (none, cache) := by
  unfold get_lightcast_token
  rw [if_neg (by rw [hmiss]; exact Bool.false_ne_true)]
  rcases hfail with rfl | ⟨tok, expires_in, rfl, htok⟩
  · rfl
  · simp [htok]

/-- C10 witness: an expired cache (`expires_at = 50` at `now = 0`... the
margin check fails) and a network error leave the cache exactly as it
was and return `none`. -/
theorem C10_witness :
    get_lightcast_token true 0 ⟨some "old", 50⟩ TokenResp.err =
      (none, ⟨some "old", 50⟩) := by
  have hmiss : cacheHit 0 ⟨some "old", 50⟩ = false := by
    have ht : pyTruthyStr (some "old") = true := by decide
    simp only [cacheHit, ht, Bool.true_and, decide_eq_false_iff_not]
    norm_num
  exact C10_token_failure_leaves_cache 0 ⟨some "old", 50⟩ TokenResp.err
    hmiss (Or.inl rfl)

/-! ## Narrative Summarizer (`get_ai_summary`, app.py lines 280–354)

The function builds a prompt from the query, the total count, a sample of
the listings and the salary data, posts it, and extracts the reply.  The
prompt construction happens before (outside) the `try` block around the
HTTP call; the only expression in it that can raise is
`', '.join(sample_titles)` when some sampled listing has `title = None`
(a `TypeError`, uncaught — modelled by `PyResult.exn`).  The HTTP call
and the response parsing are modelled by an `AiFetch` value. -/

/-- The `query_details` dict `{'what': ..., 'where': ..., 'country': ...}`. -/
structure QueryDetails where
  what : String
  where_ : String
  country : String
deriving DecidableEq, Repr

/-- One entry of `job_listings` as assembled in `fetch_market_insights`
(app.py 425–433): every field except `title`, `url` and `created` got a
string default via `.get(..., default)`. -/
structure JobListing where
  adzuna_job_id : String
  title : Option String
  company : String
  location : String
  description : String
  url : Option ParsedUrl
  created : Option String
deriving DecidableEq, Repr

/-- Digit grouping, applied to the reversed digit list: a separator after
every three digits. -/
def commaGroup : List Char → List Char
  | a :: b :: c :: t =>
    match t with
    | [] => [a, b, c]
    | _ :: _ => a :: b :: c :: ',' :: commaGroup t
  | l => l

/-- Python `format(n, ',')` — the `:,` format spec: thousands separated by
commas. -/
def intComma (n : ℤ) : String :=
  (if n < 0 then "-" else "") ++
    String.mk (commaGroup (Nat.toDigits 10 n.natAbs).reverse).reverse

/-- The `salary_info` phrase (app.py 295–299): the numeric phrase when
`salary_data.get('average')` is truthy (present and non-zero), else the
distribution phrase when the histogram is truthy (non-empty), else
`"Not available"` (also when `salary_data` is `None`). -/
def salaryInfo : Option SalaryInsight → String
  | none => "Not available"
  | some sd =>
    if pyTruthyInt sd.average then
      "approximately " ++ intComma (sd.average.getD 0) ++
        " (currency based on country)"
    else if !sd.histogram.isEmpty then
      "Distribution data available, but average could not be calculated."
    else "Not available"

/-- `" ".join(...)` over the descriptions of the first 5 sampled listings
(app.py 287–290).  The `isinstance(..., str)` filter keeps every element
here because the assembled listings always carry a string description. -/
def sampleDescriptions (sample : List JobListing) : String :=
  String.intercalate " " ((sample.take 5).map (·.description))

/-- `max_desc_length` (app.py 291). -/
def max_desc_length : ℕ := 1000

/-- The truncation of app.py 292–293: over the threshold, cut to exactly
`max_desc_length` characters and append `"..."`. -/
def truncateDescriptions (s : String) : String :=
  if max_desc_length < s.length then pySlice max_desc_length s ++ "..." else s

/-- The part of the user prompt before `{salary_info}` (app.py 304–307). -/
def promptHead (q : QueryDetails) (total_jobs : ℕ) : String :=
  "Analyze the job market for a recruiter hiring for '" ++ q.what ++
    "' in '" ++ q.where_ ++ ", " ++ pyUpper q.country ++
    "'.\n\n**Market Data:**\n- Total Job Listings Found: " ++
    toString total_jobs ++ "\n- Estimated Average Salary: "

/-- The part of the user prompt after `{salary_info}` (app.py 308–314). -/
def promptTail (sample_titles : List String) (sample_descriptions : String) :
    String :=
  "\n- Sample Job Titles: " ++
    (if sample_titles.isEmpty then "N/A"
     else String.intercalate ", " sample_titles) ++
    "\n- Sample Job Description Excerpts: " ++
    (if sample_descriptions.isEmpty then "N/A" else sample_descriptions) ++
    "\n\n**Recruiter Analysis (Based *only* on above data - use Markdown for emphasis):**\n" ++
    "1.  **Market Activity & Competitiveness:** Based on job volume and salary data (if available), how active/competitive does this market seem?\n" ++
    "2.  **Specific Skills/Keywords Mentioned:** List the specific skills, technologies, tools, or qualifications explicitly mentioned in the sample job titles and descriptions provided above. Do not generalize or infer skills not present in the text.\n" ++
    "3.  **Candidate Pool & Sourcing:** What does the job volume suggest about the likely candidate pool size and the potential need for proactive sourcing vs. relying on applications?\n\n" ++
    "Provide a concise, bulleted summary. Do not invent skills or salary details not present in the data."

/-- The `user_prompt` f-string (app.py 303–315): head, then the salary
phrase, then the rest. -/
def userPrompt (q : QueryDetails) (total_jobs : ℕ) (sample_titles : List String)
    (sample_descriptions salary_info : String) : String :=
  promptHead q total_jobs ++ salary_info ++
    promptTail sample_titles sample_descriptions

/-- Outcome of the POST to the Azure endpoint.  `fail` covers `Timeout`,
`HTTPError`, `RequestException` and any other exception inside the `try`;
on `success` the payload is `choices[0]['message']['content']` when the
response carries it (`none` for a missing/empty `choices` list, a missing
or falsy `message`, or a `message` without `content` — all the paths that
return `None`). -/
inductive AiFetch where
  | fail
  | success (content : Option String)
deriving DecidableEq

/-- Result of a Python call that can also raise an uncaught exception. -/
inductive PyResult (α : Type) where
  | ok (val : α)
  | exn
deriving DecidableEq

/-- The condition under which `', '.join(sample_titles)` raises
`TypeError` (app.py 308): the join is evaluated only when `sample_titles`
is truthy (non-empty), and raises when it holds a `None`. -/
def aiPromptCrashes (sample : List JobListing) : Bool :=
  let sample_titles := (sample.take 7).map (·.title)
  !sample_titles.isEmpty && sample_titles.any (·.isNone)

/-- `get_ai_summary` (app.py 280–354).  `aiCreds` models
`AZURE_AI_ENDPOINT` and `AZURE_AI_KEY` both being set.  The prompt is
built (and can raise, see `aiPromptCrashes`) before the request; the
request and parsing are the `AiFetch` value, and a successful extraction
is returned `.strip()`-ed. -/
def get_ai_summary (aiCreds : Bool) (query_details : QueryDetails)
    (total_jobs : ℕ) (job_listings_sample : List JobListing)
    (salary_data : Option SalaryInsight) (r : AiFetch) :
    PyResult (Option String) :=
  if aiCreds = false then .ok none
  else
    let sample_titles := (job_listings_sample.take 7).map (·.title)
    let sample_descriptions :=
      truncateDescriptions (sampleDescriptions job_listings_sample)
    let salary_info := salaryInfo salary_data
    if aiPromptCrashes job_listings_sample then .exn
    else
      let _user_prompt := userPrompt query_details total_jobs
        (sample_titles.filterMap id) sample_descriptions salary_info
      match r with
      | .fail => .ok none
      | .success none => .ok none
      | .success (some content) => .ok (some (pyStrip content))

/-- The value `get_ai_summary` returns when the prompt builds without
raising. -/
def aiOkValue (aiCreds : Bool) (r : AiFetch) : Option String :=
  if aiCreds = false then none
  else
    match r with
    | .fail => none
    | .success none => none
    | .success (some content) => some (pyStrip content)

lemma get_ai_summary_eq_ok (aiCreds : Bool) (q : QueryDetails) (total : ℕ)
    (sample : List JobListing) (sd : Option SalaryInsight) (r : AiFetch)
    (hc : aiPromptCrashes sample = false) :
    get_ai_summary aiCreds q total sample sd r = .ok (aiOkValue aiCreds r) := by
  cases aiCreds with
  | false => rfl
  | true =>
    cases r with
    | fail => simp [get_ai_summary, aiOkValue, hc]
    | success c =>
      cases c with
      | none => simp [get_ai_summary, aiOkValue, hc]
      | some s => simp [get_ai_summary, aiOkValue, hc]

/-- C7: whenever the concatenated sample-description string is strictly
longer than the 1000-character threshold, it is cut to exactly the
threshold length with the ellipsis marker `"..."` appended (total length
1003), with no word-boundary adjustment; at or below the threshold it is
left unchanged. -/
theorem C7_description_truncation (sample : List JobListing) :
    (1000 < (sampleDescriptions sample).length →
      truncateDescriptions (sampleDescriptions sample) =
        pySlice 1000 (sampleDescriptions sample) ++ "..."
      ∧ (truncateDescriptions (sampleDescriptions sample)).length = 1003)
    ∧ ((sampleDescriptions sample).length ≤ 1000 →
      truncateDescriptions (sampleDescriptions sample) =
        sampleDescriptions sample) := by
  set s := sampleDescriptions sample with hs
  constructor
  · intro h
    have ht : truncateDescriptions s = pySlice 1000 s ++ "..." := by
      unfold truncateDescriptions max_desc_length
      rw [if_pos h]
    refine ⟨ht, ?_⟩
    rw [ht]
    have h1 : (pySlice 1000 s).length = 1000 := by
      simp only [pySlice, String.length, List.length_take]
      have : s.length = s.data.length := rfl
      omega
    rw [String.length_append, h1]
    rfl
  · intro h
    unfold truncateDescriptions max_desc_length
    rw [if_neg (by omega)]

/-- C7 witness: a single sampled listing whose description has 1001
characters is cut to 1000 characters plus `"..."`. -/
theorem C7_witness :
    1000 < (sampleDescriptions [⟨"1234567", some "t", "c", "l",
        String.mk (List.replicate 1001 'a'), none, none⟩]).length
    ∧ truncateDescriptions (sampleDescriptions [⟨"1234567", some "t", "c", "l",
        String.mk (List.replicate 1001 'a'), none, none⟩]) =
      pySlice 1000 (sampleDescriptions [⟨"1234567", some "t", "c", "l",
        String.mk (List.replicate 1001 'a'), none, none⟩]) ++ "..."
    ∧ (truncateDescriptions (sampleDescriptions [⟨"1234567", some "t", "c", "l",
        String.mk (List.replicate 1001 'a'), none, none⟩])).length = 1003 := by
  have h : 1000 < (sampleDescriptions [⟨"1234567", some "t", "c", "l",
      String.mk (List.replicate 1001 'a'), none, none⟩]).length := by
    have : (sampleDescriptions [⟨"1234567", some "t", "c", "l",
        String.mk (List.replicate 1001 'a'), none, none⟩]) =
        String.mk (List.replicate 1001 'a') := rfl
    rw [this]
    show 1000 < (List.replicate 1001 'a').length
    rw [List.length_replicate]
    norm_num
  have hmain := (C7_description_truncation [⟨"1234567", some "t", "c", "l",
      String.mk (List.replicate 1001 'a'), none, none⟩]).1 h
  exact ⟨h, hmain.1, hmain.2⟩

/-- C8: the salary-phrase selection tests Python truthiness of the average
rather than presence: a computed average of `0` together with a non-empty
histogram selects the distribution-only phrase, which is what the user
prompt embeds between its head and tail. -/
theorem C8_zero_average_distribution_phrase (h : List (String × ℕ))
    (hne : h.isEmpty = false) (q : QueryDetails) (total_jobs : ℕ)
    (sample_titles : List String) (ds : String) :
    salaryInfo (some ⟨h, some 0⟩) =
      "Distribution data available, but average could not be calculated."
    ∧ userPrompt q total_jobs sample_titles ds (salaryInfo (some ⟨h, some 0⟩)) =
      promptHead q total_jobs ++
        "Distribution data available, but average could not be calculated." ++
        promptTail sample_titles ds := by
  have hphrase : salaryInfo (some ⟨h, some 0⟩) =
      "Distribution data available, but average could not be calculated." := by
    simp [salaryInfo, pyTruthyInt, hne]
  refine ⟨hphrase, ?_⟩
  rw [userPrompt, hphrase]

/-- C8 witness: the histogram `30000 ↦ 2` with computed average `0` makes
the prompt carry the distribution-only phrase. -/
theorem C8_witness :
    salaryInfo (some ⟨[("30000", 2)], some 0⟩) =
      "Distribution data available, but average could not be calculated."
    ∧ userPrompt ⟨"nurse", "Boston", "us"⟩ 5 ["RN"] "d"
        (salaryInfo (some ⟨[("30000", 2)], some 0⟩)) =
      promptHead ⟨"nurse", "Boston", "us"⟩ 5 ++
        "Distribution data available, but average could not be calculated." ++
        promptTail ["RN"] "d" :=
  C8_zero_average_distribution_phrase [("30000", 2)] (by decide)
    ⟨"nurse", "Boston", "us"⟩ 5 ["RN"] "d"

/-! ## Insight Orchestrator (`fetch_market_insights`, app.py lines 380–479)

The four network interactions are modelled by a `FetchWorld`: the Adzuna
search response, the Adzuna histogram response (consumed by the
`get_salary_histogram` model), the result of `get_lightcast_skills`
(whose every failure mode — no token, failed normalization, missing
skills — yields `None`; only that optional result reaches this
function), the Azure response (consumed by the `get_ai_summary` model),
and the external `markdown.markdown` renderer as an opaque function. -/

/-- One raw Adzuna search result: the members the loop of app.py 421–433
reads.  `company`/`location` stand for `['company']['display_name']`
(`none` when either level is missing). -/
structure RawJob where
  redirect_url : Option ParsedUrl
  title : Option String
  company : Option String
  location : Option String
  description : Option String
  created : Option String
deriving DecidableEq, Repr

/-- The loop body of app.py 421–435: extract the id from the redirect URL
and, when it is truthy, append the normalized listing; otherwise the
result is skipped (only a warning is logged). -/
def mkListing (job : RawJob) : Option JobListing :=
  match extract_adzuna_job_id job.redirect_url with
  | some adzuna_job_id =>
    if adzuna_job_id.isEmpty then none
    else
      some ⟨adzuna_job_id, job.title, job.company.getD "N/A",
        job.location.getD "N/A",
        job.description.getD "No description available.",
        job.redirect_url, job.created⟩
  | none => none

/-- A raw result contributes a listing exactly when its id extraction
yields a truthy string. -/
def hasDerivableId (job : RawJob) : Bool :=
  match extract_adzuna_job_id job.redirect_url with
  | some id_str => !id_str.isEmpty
  | none => false

lemma mkListing_isSome (job : RawJob) :
    (mkListing job).isSome = hasDerivableId job := by
  unfold mkListing hasDerivableId
  cases extract_adzuna_job_id job.redirect_url with
  | none => rfl
  | some s =>
    cases hs : s.isEmpty <;> simp [hs]

lemma length_filterMap_mkListing (l : List RawJob) :
    (l.filterMap mkListing).length = l.countP hasDerivableId := by
  induction l with
  | nil => rfl
  | cons j t ih =>
    rw [List.filterMap_cons, List.countP_cons]
    cases hm : mkListing j with
    | none =>
      have hd : hasDerivableId j = false := by
        rw [← mkListing_isSome, hm]
        rfl
      simp [hd, ih]
    | some x =>
      have hd : hasDerivableId j = true := by
        rw [← mkListing_isSome, hm]
        rfl
      simp [hd, ih]

/-- Outcome of the Adzuna search request.  The three named errors are the
source's `Timeout`, `HTTPError` and `RequestException` handlers;
`otherError` is its catch-all `except Exception`.  On `success`, the
decoded JSON's `count` member (possibly absent) and `results` list. -/
inductive SearchFetch where
  | timeout
  | httpError (code : ℕ)
  | connError
  | otherError
  | success (count : Option ℕ) (results : List RawJob)
deriving DecidableEq

/-- App.py 464–467: when `ai_summary_raw` is truthy, render it through the
external markdown library (`md`) and mark it safe; otherwise the field
stays `None`. -/
def renderAiHtml (md : String → String) : Option String → Option String
  | some raw => if raw.isEmpty then none else some (md raw)
  | none => none

/-- The `insights_data` dictionary of app.py 471–478. -/
structure MarketInsights where
  query : QueryDetails
  total_matching_jobs : ℕ
  job_listings : List JobListing
  salary_data : Option SalaryInsight
  ai_summary_html : Option String
  common_skills : Option (List String)
deriving DecidableEq, Repr

/-- The external world one `fetch_market_insights` call interacts with. -/
structure FetchWorld where
  searchResp : SearchFetch
  histResp : HistFetch
  skillsResult : Option (List String)
  aiResp : AiFetch
  md : String → String

/-- `fetch_market_insights` (app.py 380–479).  Returns the result together
with the list of `flash` messages raised during the call; `credsOk` flags
model the Adzuna and Azure environment variables.  `.exn` is an uncaught
exception escaping the function (nothing in the function catches what
`get_ai_summary`'s prompt construction may raise). -/
def fetch_market_insights (adzunaCreds aiCreds : Bool)
    (what where_ country : String) (w : FetchWorld) :
    PyResult (Option MarketInsights × List String) :=
  if what = "" ∨ where_ = "" ∨ country = "" then
    .ok (none, ["Missing search criteria."])
  else if adzunaCreds = false then
    .ok (none, ["Adzuna API credentials not configured."])
  else
    let query_details : QueryDetails := ⟨what, where_, country⟩
    match w.searchResp with
    | .timeout =>
      .ok (none, ["Adzuna search request timed out. Please try again."])
    | .httpError code =>
      .ok (none, ["Adzuna API Error (" ++ toString code ++
        "). Please check search terms or try again later."])
    | .connError =>
      .ok (none,
        ["Could not connect to Adzuna. Please check your connection or try again later."])
    | .otherError =>
      .ok (none,
        ["An internal server error occurred while fetching job listings."])
    | .success count results =>
      let total_jobs := count.getD 0
      let job_listings := results.filterMap mkListing
      let salary_data := get_salary_histogram adzunaCreds w.histResp
      let common_skills := w.skillsResult
      match get_ai_summary aiCreds query_details total_jobs
          (job_listings.take 10) salary_data w.aiResp with
      | .exn => .exn
      | .ok ai_summary_raw =>
        .ok (some ⟨query_details, total_jobs, job_listings, salary_data,
          renderAiHtml w.md ai_summary_raw, common_skills⟩, [])

/-- The composite result assembled on the success path (with the Adzuna
credentials set). -/
def assembledInsights (aiCreds : Bool) (what where_ country : String)
    (w : FetchWorld) (count : Option ℕ) (results : List RawJob) :
    MarketInsights :=
  ⟨⟨what, where_, country⟩, count.getD 0, results.filterMap mkListing,
    get_salary_histogram true w.histResp,
    renderAiHtml w.md (aiOkValue aiCreds w.aiResp),
    w.skillsResult⟩

lemma fetch_success_eq (aiCreds : Bool) (what where_ country : String)
    (w : FetchWorld) (count : Option ℕ) (results : List RawJob)
    (h1 : what ≠ "") (h2 : where_ ≠ "") (h3 : country ≠ "")
    (hs : w.searchResp = .success count results)
    (hc : aiPromptCrashes ((results.filterMap mkListing).take 10) = false) :
    fetch_market_insights true aiCreds what where_ country w =
      .ok (some (assembledInsights aiCreds what where_ country w count results),
        []) := by
  unfold fetch_market_insights
  rw [if_neg (by push_neg; exact ⟨h1, h2, h3⟩), if_neg (by simp), hs]
  dsimp only
  rw [get_ai_summary_eq_ok _ _ _ _ _ _ hc]
  rfl

/-- C1 (amended): `fetch_market_insights` distinguishes fatal from
degrading failures.  A job-search failure (timeout, HTTP error, or
connection error) makes the whole call return `None` with a
cause-specific user-facing message, while — provided no sampled listing
lacks a title (see `C1_counterexample` for what happens otherwise) — a
failure of the salary, skills, or narrative sub-call never aborts: the
corresponding field of the assembled result is absent (`None`) and the
call still returns a populated `MarketInsights` with query, total_jobs,
and listings intact. -/
theorem C1_fatal_vs_degrading (aiCreds : Bool) (what where_ country : String)
    (w : FetchWorld) (h1 : what ≠ "") (h2 : where_ ≠ "") (h3 : country ≠ "") :
    (w.searchResp = .timeout →
      fetch_market_insights true aiCreds what where_ country w =
        .ok (none, ["Adzuna search request timed out. Please try again."]))
    ∧ (∀ code, w.searchResp = .httpError code →
      fetch_market_insights true aiCreds what where_ country w =
        .ok (none, ["Adzuna API Error (" ++ toString code ++
          "). Please check search terms or try again later."]))
    ∧ (w.searchResp = .connError →
      fetch_market_insights true aiCreds what where_ country w =
        .ok (none,
          ["Could not connect to Adzuna. Please check your connection or try again later."]))
    ∧ (∀ count results, w.searchResp = .success count results →
      aiPromptCrashes ((results.filterMap mkListing).take 10) = false →
      fetch_market_insights true aiCreds what where_ country w =
        .ok (some (assembledInsights aiCreds what where_ country w count results),
          [])
      ∧ (assembledInsights aiCreds what where_ country w count results).query =
          ⟨what, where_, country⟩
      ∧ (assembledInsights aiCreds what where_ country w count
          results).total_matching_jobs = count.getD 0
      ∧ (assembledInsights aiCreds what where_ country w count
          results).job_listings = results.filterMap mkListing
      ∧ (get_salary_histogram true w.histResp = none →
        (assembledInsights aiCreds what where_ country w count
          results).salary_data = none)
      ∧ (w.skillsResult = none →
        (assembledInsights aiCreds what where_ country w count
          results).common_skills = none)
      ∧ (aiOkValue aiCreds w.aiResp = none →
        (assembledInsights aiCreds what where_ country w count
          results).ai_summary_html = none)) := by
  refine ⟨?_, ?_, ?_, ?_⟩
  · intro h
    unfold fetch_market_insights
    rw [if_neg (by push_neg; exact ⟨h1, h2, h3⟩), if_neg (by simp), h]
  · intro code h
    unfold fetch_market_insights
    rw [if_neg (by push_neg; exact ⟨h1, h2, h3⟩), if_neg (by simp), h]
  · intro h
    unfold fetch_market_insights
    rw [if_neg (by push_neg; exact ⟨h1, h2, h3⟩), if_neg (by simp), h]
  · intro count results hs hc
    refine ⟨fetch_success_eq aiCreds what where_ country w count results
      h1 h2 h3 hs hc, rfl, rfl, rfl, ?_, ?_, ?_⟩
    · intro hsal
      show get_salary_histogram true w.histResp = none
      exact hsal
    · intro hsk
      show w.skillsResult = none
      exact hsk
    · intro hai
      show renderAiHtml w.md (aiOkValue aiCreds w.aiResp) = none
      rw [hai]
      rfl

/-- A raw result whose redirect URL yields the id `1234567` by the path
heuristic. -/
def jobOk1 : RawJob :=
  ⟨some ⟨"/details/1234567", []⟩, some "Nurse A", some "Acme", some "Boston",
    some "desc one", some "2024-01-01"⟩

/-- A second result with a derivable id (path heuristic). -/
def jobOk2 : RawJob :=
  ⟨some ⟨"/land/ad/9876543210", []⟩, some "Nurse B", none, none, none, none⟩

/-- A third result with a derivable id (`id` query parameter). -/
def jobOk3 : RawJob :=
  ⟨some ⟨"/go", [("id", "xy12345")]⟩, some "Nurse C", some "Beta",
    some "Boston", some "desc three", none⟩

/-- A result with no derivable id (short path segments, no known query
parameter). -/
def jobBad1 : RawJob := ⟨some ⟨"/a/b", []⟩, some "Nurse D", none, none, none, none⟩

/-- A result with no redirect URL at all. -/
def jobBad2 : RawJob := ⟨none, some "Nurse E", none, none, none, none⟩

/-- Standalone evaluation of the spec's salary scenario, reused by
concrete orchestrator runs. -/
lemma salary_scenario_eval :
    get_salary_histogram true
      (HistFetch.success (some [("30000", 2), ("40000", 2)])) =
      some ⟨[("30000", 2), ("40000", 2)], some 35000⟩ := by
  have hpf1 : parseFloat? "30000" = some 30000 := by
    have hp : parseFloatParts? "30000" = some (false, 30000, 0, 0) := by decide
    simp [parseFloat?, hp]
  have hpf2 : parseFloat? "40000" = some 40000 := by
    have hp : parseFloatParts? "40000" = some (false, 40000, 0, 0) := by decide
    simp [parseFloat?, hp]
  have hts : totalSalary [("30000", 2), ("40000", 2)] = 140000 := by
    simp [totalSalary, hpf1, hpf2]
    norm_num
  have htc : totalCount [("30000", 2), ("40000", 2)] = 4 := by
    simp [totalCount, hpf1, hpf2]
  have hround : pythonRound ((140000 : ℚ) / 4) = 35000 := by
    rw [show ((140000 : ℚ) / 4) = 35000 by norm_num]
    rw [pythonRound_eq_floor (by norm_num)]
    norm_num
  simp [get_salary_histogram, hts, htc, hround]

/-- The world of the spec scenario "narrative provider call times out":
search succeeds with one listing, salary data is available, skills are
available, the Azure call fails. -/
def narrativeFailWorld : FetchWorld :=
  ⟨.success (some 1) [jobOk1], .success (some [("30000", 2), ("40000", 2)]),
    some ["Nursing"], .fail, id⟩

/-- A world where the Adzuna search times out. -/
def timeoutWorld : FetchWorld := ⟨.timeout, .fail, none, .fail, id⟩

/-- C1 witness: a search timeout aborts with its specific message, and the
spec scenario — narrative call times out — still returns a populated
result with salary and skills intact and `ai_summary_html = none`. -/
theorem C1_witness :
    fetch_market_insights true true "nurse" "Boston" "us" timeoutWorld =
      .ok (none, ["Adzuna search request timed out. Please try again."])
    ∧ fetch_market_insights true true "nurse" "Boston" "us" narrativeFailWorld =
      .ok (some (assembledInsights true "nurse" "Boston" "us"
        narrativeFailWorld (some 1) [jobOk1]), [])
    ∧ (assembledInsights true "nurse" "Boston" "us" narrativeFailWorld
        (some 1) [jobOk1]).ai_summary_html = none
    ∧ (assembledInsights true "nurse" "Boston" "us" narrativeFailWorld
        (some 1) [jobOk1]).salary_data =
        some ⟨[("30000", 2), ("40000", 2)], some 35000⟩
    ∧ (assembledInsights true "nurse" "Boston" "us" narrativeFailWorld
        (some 1) [jobOk1]).common_skills = some ["Nursing"] := by
  have hA := (C1_fatal_vs_degrading true "nurse" "Boston" "us" timeoutWorld
    (by decide) (by decide) (by decide)).1 rfl
  have hB := (C1_fatal_vs_degrading true "nurse" "Boston" "us"
    narrativeFailWorld (by decide) (by decide) (by decide)).2.2.2
    (some 1) [jobOk1] rfl (by decide)
  refine ⟨hA, hB.1, hB.2.2.2.2.2.2 rfl, ?_, rfl⟩
  show get_salary_histogram true narrativeFailWorld.histResp =
    some ⟨[("30000", 2), ("40000", 2)], some 35000⟩
  exact salary_scenario_eval

/-- A raw result with a derivable id but no `title` member. -/
def jobNoTitle : RawJob :=
  ⟨some ⟨"/details/1234567", []⟩, none, none, none, none, none⟩

/-- A world that makes the narrative prompt construction raise: the search
succeeds, its single kept listing has `title = None`, and the Azure
credentials are set (the response would even be a success). -/
def crashWorld : FetchWorld :=
  ⟨.success (some 1) [jobNoTitle], .fail, none, .success (some "All good."), id⟩

/-- C1 counterexample: with valid inputs and credentials, a search success
whose kept listing lacks a title makes `', '.join(sample_titles)` in the
narrative prompt construction raise an uncaught `TypeError` (app.py 308 is
outside the `try` of `get_ai_summary`, and `fetch_market_insights` line
464 has no `try` either): the call is aborted by the exception instead of
returning the populated `MarketInsights` the claim promises. -/
theorem C1_counterexample :
    fetch_market_insights true true "nurse" "Boston" "us" crashWorld =
      PyResult.exn
    ∧ fetch_market_insights true true "nurse" "Boston" "us" crashWorld ≠
      .ok (some (assembledInsights true "nurse" "Boston" "us" crashWorld
        (some 1) [jobNoTitle]), []) := by
  have h1 : fetch_market_insights true true "nurse" "Boston" "us" crashWorld =
      PyResult.exn := rfl
  exact ⟨h1, by simp [h1]⟩

/-- C3: on a successful search response, the listings of the returned
insights are exactly the raw results with a derivable id (every result
whose id extraction fails is excluded), while the returned total equals
the count field the provider reported (0 when absent), unaffected by how
many listings were dropped. -/
theorem C3_listings_filtered_total_from_count (aiCreds : Bool)
    (what where_ country : String) (w : FetchWorld) (count : Option ℕ)
    (results : List RawJob)
    (h1 : what ≠ "") (h2 : where_ ≠ "") (h3 : country ≠ "")
    (hs : w.searchResp = .success count results)
    (hc : aiPromptCrashes ((results.filterMap mkListing).take 10) = false) :
    fetch_market_insights true aiCreds what where_ country w =
      .ok (some (assembledInsights aiCreds what where_ country w count results),
        [])
    ∧ (assembledInsights aiCreds what where_ country w count
        results).total_matching_jobs = count.getD 0
    ∧ (assembledInsights aiCreds what where_ country w count
        results).job_listings = results.filterMap mkListing
    ∧ (assembledInsights aiCreds what where_ country w count
        results).job_listings.length = results.countP hasDerivableId
    ∧ ∀ job ∈ results, extract_adzuna_job_id job.redirect_url = none →
        mkListing job = none := by
  refine ⟨fetch_success_eq aiCreds what where_ country w count results
    h1 h2 h3 hs hc, rfl, rfl, ?_, ?_⟩
  · show (results.filterMap mkListing).length = _
    exact length_filterMap_mkListing results
  · intro job _ hex
    unfold mkListing
    rw [hex]

/-- The spec scenario search world: `count = 42`, five results of which
three have extractable ids. -/
def scenarioWorld : FetchWorld :=
  ⟨.success (some 42) [jobOk1, jobOk2, jobOk3, jobBad1, jobBad2], .fail, none,
    .fail, id⟩

/-- C3 witness: the scenario `count: 42` with five results, three of them
with extractable ids, yields three listings and `total_matching_jobs = 42`. -/
theorem C3_witness :
    fetch_market_insights true true "nurse" "Boston" "us" scenarioWorld =
      .ok (some (assembledInsights true "nurse" "Boston" "us" scenarioWorld
        (some 42) [jobOk1, jobOk2, jobOk3, jobBad1, jobBad2]), [])
    ∧ (assembledInsights true "nurse" "Boston" "us" scenarioWorld (some 42)
        [jobOk1, jobOk2, jobOk3, jobBad1, jobBad2]).total_matching_jobs = 42
    ∧ (assembledInsights true "nurse" "Boston" "us" scenarioWorld (some 42)
        [jobOk1, jobOk2, jobOk3, jobBad1, jobBad2]).job_listings.length = 3 := by
  have h := C3_listings_filtered_total_from_count true "nurse" "Boston" "us"
    scenarioWorld (some 42) [jobOk1, jobOk2, jobOk3, jobBad1, jobBad2]
    (by decide) (by decide) (by decide) rfl (by decide)
  refine ⟨h.1, h.2.1, ?_⟩
  rw [h.2.2.2.1]
  decide

end JobApp
